import Mathlib

/-!
Verification development for the site-scoped interaction management backend.

The Python source is shallowly embedded: SQLAlchemy tables become lists of
records, the Redis store becomes an association list of string keys to string
values, raising an exception becomes returning an error value, and the
process-local blacklist set of auth.utils becomes an explicit list parameter.
External primitives that are out of scope for the application code (bcrypt
hashing, the pyjwt wire format, SQL ordering collation) are abstracted: a
token is either malformed or a signed claim set, and password verification is
passed in as a function parameter.  Time is an explicit natural-number
parameter, and randomness (the fresh jti) is likewise a parameter.
-/

deriving instance DecidableEq for Except

/-- JWT claim set.  Every claim is optional, mirroring a Python dict in which
a key may be absent.  The auth.utils token shape stores the allowed sites
under the key site_ids, while AuthService.login stores them under the key
sites; both keys are modelled as separate fields, matching the two divergent
payload shapes present in the source. -/
structure Payload where
  sub : Option Nat := none
  site_ids : Option (List Nat) := none
  sites : Option (List Nat) := none
  username : Option String := none
  exp : Option Nat := none
  iat : Option Nat := none
  jti : Option String := none
deriving DecidableEq

/-- A bearer token: either not a decodable JWT at all, or a claim set signed
with some key.  jwt.decode recovers the payload exactly when the signing key
matches the verification secret. -/
inductive Token where
  | malformed : Token
  | signed : Payload → String → Token
deriving DecidableEq

/-- Outcome of jwt.decode inside utils/security.decode_token. -/
inductive JwtOutcome where
  | ok : Payload → JwtOutcome
  | expiredSignature : JwtOutcome
  | invalidToken : JwtOutcome
deriving DecidableEq

/-- jwt.decode with signature and expiry verification: a malformed token or a
signature mismatch raises InvalidTokenError; a present exp claim at or before
the current time raises ExpiredSignatureError; otherwise the payload is
returned. -/
def jwtDecode (t : Token) (secret : String) (now : Nat) : JwtOutcome :=
  match t with
  | .malformed => .invalidToken
  | .signed p key =>
    if key ≠ secret then .invalidToken
    else
      match p.exp with
      | some e => if e ≤ now then .expiredSignature else .ok p
      | none => .ok p

namespace Security

/-- utils/security.decode_token: decode and verify, then require the claims
exp, iat and jti to be present; every failure path returns none. -/
def decode_token (t : Token) (secret : String) (now : Nat) : Option Payload :=
  match jwtDecode t secret now with
  | .ok p =>
    if p.exp.isSome ∧ p.iat.isSome ∧ p.jti.isSome then some p else none
  | .expiredSignature => none
  | .invalidToken => none

/-- utils/security.generate_token: copy the payload, add exp = now plus the
expiration window, iat = now and a fresh jti, and sign with the secret.  The
fresh jti is passed in as a parameter in place of secrets.token_hex. -/
def generate_token (p : Payload) (secret : String) (now : Nat)
    (expiration_hours : Nat) (freshJti : String) : Token :=
  Token.signed
    { p with exp := some (now + expiration_hours * 3600), iat := some now,
             jti := some freshJti }
    secret

end Security

/-- The Redis key-value store, as an association list.  Key TTLs only govern
expiry over wall-clock time, which is outside the sequential model, so the ex
arguments of redis set calls are dropped. -/
def Redis := List (String × String)

instance : DecidableEq Redis := inferInstanceAs (DecidableEq (List (String × String)))

/-- redis get. -/
def redis_get (r : Redis) (k : String) : Option String :=
  (r.find? (fun e => e.1 == k)).map (fun e => e.2)

/-- redis set: overwrite the value stored at the key. -/
def redis_set (r : Redis) (k v : String) : Redis :=
  (k, v) :: r.filter (fun e => e.1 ≠ k)

/-- redis delete. -/
def redis_delete (r : Redis) (k : String) : Redis :=
  r.filter (fun e => e.1 ≠ k)

namespace AuthUtils

/-- auth/utils.validate_auth_token: reject a token found in the process-local
TOKEN_BLACKLIST set, then delegate to decode_token.  The blacklist set is
passed explicitly. -/
def validate_auth_token (blacklist : List Token) (t : Token) (secret : String)
    (now : Nat) : Option Payload :=
  if t ∈ blacklist then none
  else Security.decode_token t secret now

/-- auth/utils.invalidate_token: add a token to the process-local blacklist;
returns true when newly added together with the updated set. -/
def invalidate_token (blacklist : List Token) (t : Token) :
    Bool × List Token :=
  if t ∈ blacklist then (false, blacklist)
  else (true, t :: blacklist)

/-- Site context resolved for a request. -/
structure SiteContext where
  id : Nat
  available_sites : List Nat
deriving DecidableEq

/-- auth/utils.get_site_context: an empty (or absent) site-id list yields no
context; a requested site id must be a member of the list; with no requested
id the first site id of the list is used. -/
def get_site_context (p : Payload) (requested : Option Nat) :
    Option SiteContext :=
  match p.site_ids.getD [] with
  | [] => none
  | first :: rest =>
    let ids := first :: rest
    match requested with
    | some s =>
      if ids.contains s then some { id := s, available_sites := ids }
      else none
    | none => some { id := first, available_sites := ids }

end AuthUtils

namespace AuthService

/-- Key prefix used by AuthService when blacklisting a jti at logout. -/
def TOKEN_BLACKLIST_PREFIX : String := "token:blacklist:"

/-- auth/services.AuthService.logout: decode the token, require jti and exp,
compute the remaining ttl and store the jti in Redis under the
token:blacklist: prefix.  none models the BadRequest raised on an
undecodable token or missing claims. -/
def logout (r : Redis) (t : Token) (secret : String) (now : Nat) :
    Option Redis :=
  match Security.decode_token t secret now with
  | none => none
  | some p =>
    match p.jti, p.exp with
    | some j, some _ => some (redis_set r (TOKEN_BLACKLIST_PREFIX ++ j) "1")
    | _, _ => none

/-- auth/services.AuthService.is_token_blacklisted: look the jti up under the
token:blacklist: prefix. -/
def is_token_blacklisted (r : Redis) (jti : String) : Bool :=
  (redis_get r (TOKEN_BLACKLIST_PREFIX ++ jti)).isSome

end AuthService

namespace Extensions

/-- extensions.is_token_blacklisted, the flask-jwt-extended blocklist
callback: looks the jti up under the distinct key prefix token_blacklist:
(with an underscore, not matching the prefix written by logout). -/
def is_token_blacklisted (r : Redis) (p : Payload) : Bool :=
  match p.jti with
  | some j => (redis_get r ("token_blacklist:" ++ j)).isSome
  | none => false

end Extensions

/-- The str.lower() primitive, spelled over the character list so that it
reduces inside the kernel; semantically identical to String.toLower. -/
def str_tolower (s : String) : String :=
  ⟨s.data.map Char.toLower⟩

/-- auth/models.User row.  The user_sites relationship is represented by the
membership table of the database state rather than an embedded list. -/
structure User where
  id : Nat
  username : String
  email : String
  password_hash : String
  last_login : Option Nat := none
  is_active : Bool := true
deriving DecidableEq

/-- sites/models.Site row. -/
structure Site where
  site_id : Nat
  name : String
  description : String := ""
  is_active : Bool := true
deriving DecidableEq

/-- auth/models.UserSite row: the membership edge between a user and a site.
The assigned_at timestamp is never read by any modelled operation and is
omitted. -/
structure UserSite where
  user_id : Nat
  site_id : Nat
  role : String
deriving DecidableEq

/-- interactions/models.Interaction row.  Datetimes are epoch seconds.  The
field named type in the source is spelled typ because type is reserved. -/
structure Interaction where
  interaction_id : Nat
  site_id : Nat
  title : String
  typ : String
  lead : String
  start_datetime : Nat
  end_datetime : Option Nat := none
  timezone : String
  location : Option String := none
  description : Option String := none
  notes : Option String := none
  created_by : Nat
  created_at : Nat
  updated_by : Nat
  updated_at : Nat
deriving DecidableEq

/-- The relational state: one list per table.  next_site_id models the
autoincrement counter of the sites primary key. -/
structure DB where
  users : List User
  sites : List Site
  memberships : List UserSite
  interactions : List Interaction
  next_site_id : Nat := 1
deriving DecidableEq

/-- auth/models.User.get_site_ids: the site ids of all memberships of the
user, in table order. -/
def get_site_ids (memberships : List UserSite) (uid : Nat) : List Nat :=
  (memberships.filter (fun m => m.user_id == uid)).map (fun m => m.site_id)

/-- Replace the first element satisfying the predicate, if any, by its image
under the function; used to model an in-place mutation of the row that a
first() query returned. -/
def listReplaceFirst {α : Type} (l : List α) (p : α → Bool) (f : α → α) :
    List α :=
  match l with
  | [] => []
  | x :: xs => if p x then f x :: xs else x :: listReplaceFirst xs p f

/-- Remove the first element satisfying the predicate, if any; used to model
session.delete of the row that a first() query returned. -/
def listRemoveFirst {α : Type} (l : List α) (p : α → Bool) : List α :=
  match l with
  | [] => []
  | x :: xs => if p x then xs else x :: listRemoveFirst xs p

namespace AuthUtils

/-- auth/utils.get_user_from_token: read the sub claim (a missing or zero
subject is falsy in Python and yields none) and look the user up by id. -/
def get_user_from_token (users : List User) (p : Payload) : Option User :=
  match p.sub with
  | none => none
  | some uid =>
    if uid == 0 then none
    else users.find? (fun u => u.id == uid)

end AuthUtils

namespace Middleware

/-- Endpoints that bypass authentication. -/
def PUBLIC_ROUTES : List String :=
  ["auth.login", "auth.logout", "auth.request_password_reset",
   "auth.reset_password"]

/-- An incoming request, as seen by the middleware.  The bearer-scheme
header parsing and the integer parsing of the site_id query parameter are
performed by the framework layer; the request carries the already-extracted
values (a site_id parameter that fails integer parsing becomes none, exactly
as in the source). -/
structure Request where
  endpoint : String
  header_token : Option Token := none
  cookie_token : Option Token := none
  site_id_param : Option Nat := none

/-- auth/utils.get_token_from_request: Authorization header first, cookie
fallback second. -/
def get_token_from_request (req : Request) : Option Token :=
  match req.header_token with
  | some t => some t
  | none => req.cookie_token

/-- Terminal outcome of auth_middleware for one request. -/
inductive MwOutcome where
  | publicPass : MwOutcome
  | abort401 : MwOutcome
  | abort403 : MwOutcome
  | authed : User → AuthUtils.SiteContext → MwOutcome
deriving DecidableEq

/-- auth/middlewares.auth_middleware: public routes pass; a missing,
blacklisted or invalid token, or an unknown or inactive user, aborts 401; a
failed site-context resolution aborts 403; otherwise the user and the site
context are published for the request. -/
def auth_middleware (users : List User) (blacklist : List Token)
    (secret : String) (now : Nat) (req : Request) : MwOutcome :=
  if PUBLIC_ROUTES.contains req.endpoint then .publicPass
  else
    match get_token_from_request req with
    | none => .abort401
    | some t =>
      match AuthUtils.validate_auth_token blacklist t secret now with
      | none => .abort401
      | some p =>
        match AuthUtils.get_user_from_token users p with
        | none => .abort401
        | some u =>
          if ¬ u.is_active then .abort401
          else
            match AuthUtils.get_site_context p req.site_id_param with
            | none => .abort403
            | some ctx => .authed u ctx

end Middleware

namespace AuthService

/-- Error outcome of AuthService.login: Unauthorized covers a locked account
and bad credentials; Forbidden covers a user with no site access. -/
inductive LoginErr where
  | unauthorized : LoginErr
  | forbidden : LoginErr
deriving DecidableEq

/-- Successful login payload: the issued token, the user id, and the active
sites of the user with the role held at each. -/
structure LoginOk where
  token : Token
  user_id : Nat
  sites : List (Nat × String)
deriving DecidableEq

/-- auth/services.AuthService.is_account_locked. -/
def is_account_locked (r : Redis) (username : String) : Bool :=
  (redis_get r ("account_locked:" ++ username)).isSome

/-- auth/services.AuthService.handle_failed_login: increment the per-user
attempt counter and set the lock flag once the maximum is reached. -/
def handle_failed_login (r : Redis) (username : String) : Redis :=
  let key := "login_attempts:" ++ username
  let attempts := ((redis_get r key).bind String.toNat?).getD 0 + 1
  let r1 := redis_set r key (toString attempts)
  if 5 ≤ attempts then redis_set r1 ("account_locked:" ++ username) "1"
  else r1

/-- AuthService reset of the failed-attempt counter and lock flag. -/
def reset_failed_login_attempts (r : Redis) (username : String) : Redis :=
  redis_delete (redis_delete r ("login_attempts:" ++ username))
    ("account_locked:" ++ username)

/-- auth/services.AuthService.get_user_sites: memberships of the user joined
to active sites, producing (site id, role) pairs. -/
def get_user_sites (db : DB) (uid : Nat) : List (Nat × String) :=
  (db.memberships.filter (fun m => m.user_id == uid)).filterMap
    (fun m =>
      (db.sites.find? (fun s => s.site_id == m.site_id && s.is_active)).map
        (fun s => (s.site_id, m.role)))

/-- auth/services.AuthService.login.  Password verification (bcrypt) is an
out-of-scope primitive and is passed in as the verify parameter.  The fresh
jti of the generated token is likewise a parameter.  Returns the outcome
together with the database (last-login update) and the Redis store
(attempt-counter changes). -/
def login (verify : String → String → Bool) (db : DB) (r : Redis)
    (username password : String) (secret : String) (now : Nat)
    (freshJti : String) : Except LoginErr LoginOk × DB × Redis :=
  if is_account_locked r username then (.error .unauthorized, db, r)
  else
    match db.users.find? (fun u => u.username == username) with
    | none => (.error .unauthorized, db, handle_failed_login r username)
    | some user =>
      if ¬ verify password user.password_hash then
        (.error .unauthorized, db, handle_failed_login r username)
      else
        let r1 := reset_failed_login_attempts r username
        let db1 := { db with
          users := listReplaceFirst db.users (fun u => u.username == username)
            (fun u => { u with last_login := some now }) }
        let site_ids := get_site_ids db1.memberships user.id
        if site_ids.isEmpty then (.error .forbidden, db1, r1)
        else
          let sites := get_user_sites db1 user.id
          let payload : Payload :=
            { sub := some user.id, sites := some site_ids,
              username := some username }
          let token := Security.generate_token payload secret now 24 freshJti
          (.ok { token := token, user_id := user.id, sites := sites },
           db1, r1)

end AuthService

namespace Validators

/-- utils/validators pagination constants. -/
def DEFAULT_PAGE : Int := 1

/-- Default page size. -/
def DEFAULT_PER_PAGE : Int := 25

/-- Configured maximum page size. -/
def MAX_PER_PAGE : Int := 100

/-- utils/validators.validate_pagination_params: a missing or non-positive
page falls back to the default; a positive per_page is clamped to the
maximum, a missing or non-positive one falls back to the default.  Total on
all inputs: no input is rejected. -/
def validate_pagination_params (page per_page : Option Int) : Int × Int :=
  let validated_page := match page with
    | some p => if 0 < p then p else DEFAULT_PAGE
    | none => DEFAULT_PAGE
  let validated_per_page := match per_page with
    | some pp => if 0 < pp then min pp MAX_PER_PAGE else DEFAULT_PER_PAGE
    | none => DEFAULT_PER_PAGE
  (validated_page, validated_per_page)

end Validators

namespace Pagination

/-- utils/pagination.PaginatedResult: items plus pagination metadata as
computed in its constructor. -/
structure PaginatedResult (α : Type) where
  items : List α
  total : Nat
  page : Nat
  page_size : Nat
  total_pages : Nat
  has_next : Bool
  has_prev : Bool
deriving DecidableEq

/-- The PaginatedResult constructor: total_pages is the ceiling of
total / page_size when total is positive and 1 otherwise, and the has_next
and has_prev flags compare the page against it. -/
def PaginatedResult.make {α : Type} (items : List α)
    (total page page_size : Nat) : PaginatedResult α :=
  let tp := if 0 < total then (total + page_size - 1) / page_size else 1
  { items := items, total := total, page := page, page_size := page_size,
    total_pages := tp, has_next := page < tp, has_prev := 1 < page }

end Pagination

/-- An insertion step for the ORDER BY model: place an element before the
first existing element that must come after it. -/
def orderedInsert {α : Type} (le : α → α → Bool) (x : α) :
    List α → List α
  | [] => [x]
  | y :: ys =>
    if le x y then x :: y :: ys else y :: orderedInsert le x ys

/-- Sorting model for the SQL ORDER BY clause of the repository queries: a
plain insertion sort by the given ordering.  Only the total order of rows is
relevant to any claim, never which stable order the engine picks. -/
def sortRows {α : Type} (le : α → α → Bool) : List α → List α
  | [] => []
  | x :: xs => orderedInsert le x (sortRows le xs)

namespace InteractionRepository

/-- Error raised by the interaction repository: the single ResourceNotFound
condition, carrying the resource type Interaction. -/
inductive RepoErr where
  | resourceNotFound : RepoErr
deriving DecidableEq

/-- The partial update dictionary accepted by InteractionRepository.update.
A present field means the key is in the dict; for the nullable columns the
carried value is itself optional.  The site_id field stands for the fact
that the loop over the dict sets any attribute of the model, including
site_id, whenever the key is present: InteractionUpdateSchema declares no
site_id field, so a schema-validated payload always has site_id = none. -/
structure UpdateData where
  title : Option String := none
  typ : Option String := none
  lead : Option String := none
  start_datetime : Option Nat := none
  timezone : Option String := none
  end_datetime : Option (Option Nat) := none
  location : Option (Option String) := none
  description : Option (Option String) := none
  notes : Option (Option String) := none
  site_id : Option Nat := none
deriving DecidableEq

/-- The setattr loop of InteractionRepository.update: each key present in the
dict overwrites the matching attribute of the row. -/
def applyUpdate (x : Interaction) (d : UpdateData) : Interaction :=
  { x with
    title := d.title.getD x.title,
    typ := d.typ.getD x.typ,
    lead := d.lead.getD x.lead,
    start_datetime := d.start_datetime.getD x.start_datetime,
    timezone := d.timezone.getD x.timezone,
    end_datetime := d.end_datetime.getD x.end_datetime,
    location := d.location.getD x.location,
    description := d.description.getD x.description,
    notes := d.notes.getD x.notes,
    site_id := d.site_id.getD x.site_id }

/-- The site-scoped lookup predicate shared by get_by_id, update and
delete: the row matches the requested id and its site is allowed. -/
def scopedMatch (i : Nat) (allowed : List Nat) (x : Interaction) : Bool :=
  x.interaction_id == i && allowed.contains x.site_id

/-- interactions/repositories.InteractionRepository.get_by_id: first row
matching the id with the site filter baked into the predicate; raises
ResourceNotFound when no such row exists. -/
def get_by_id (interactions : List Interaction) (i : Nat)
    (allowed : List Nat) : Except RepoErr Interaction :=
  match interactions.find? (scopedMatch i allowed) with
  | some x => .ok x
  | none => .error .resourceNotFound

/-- interactions/repositories.InteractionRepository.update: fetch through
get_by_id with the same scoping, apply the dict, stamp the audit fields and
commit.  Returns the new table and the updated row. -/
def update (interactions : List Interaction) (i : Nat) (d : UpdateData)
    (allowed : List Nat) (uid now : Nat) :
    Except RepoErr (List Interaction × Interaction) :=
  match get_by_id interactions i allowed with
  | .error e => .error e
  | .ok x =>
    let x1 := { applyUpdate x d with updated_by := uid, updated_at := now }
    .ok (listReplaceFirst interactions (scopedMatch i allowed) (fun _ => x1),
         x1)

/-- interactions/repositories.InteractionRepository.delete: fetch through
get_by_id with the same scoping, then remove the row. -/
def delete (interactions : List Interaction) (i : Nat) (allowed : List Nat) :
    Except RepoErr (List Interaction) :=
  match get_by_id interactions i allowed with
  | .error e => .error e
  | .ok _ => .ok (listRemoveFirst interactions (scopedMatch i allowed))

/-- interactions/repositories.InteractionRepository.get_all: site filter,
created_at ordering, count before pagination, then offset and limit. -/
def get_all (interactions : List Interaction) (allowed : List Nat)
    (page page_size : Nat) (sort_direction : String) :
    Pagination.PaginatedResult Interaction :=
  let filtered := interactions.filter (fun x => allowed.contains x.site_id)
  let sorted :=
    if str_tolower sort_direction == "desc" then
      sortRows (fun a b => b.created_at ≤ a.created_at) filtered
    else
      sortRows (fun a b => a.created_at ≤ b.created_at) filtered
  let total_count := filtered.length
  let offset := (page - 1) * page_size
  let items := (sorted.drop offset).take page_size
  Pagination.PaginatedResult.make items total_count page page_size

end InteractionRepository

/-- ValueError conditions raised across the sites service layer and
AuthService.associate_user_with_site; the message strings of the source are
elided into named constructors. -/
inductive ValueErr where
  | nameRequired : ValueErr
  | duplicateName : ValueErr
  | siteNotFound : ValueErr
  | userNotFound : ValueErr
  | invalidRole : ValueErr
  | lastAdmin : ValueErr
deriving DecidableEq

/-- Input dict for site creation. -/
structure SiteData where
  name : Option String := none
  description : Option String := none
  is_active : Option Bool := none
deriving DecidableEq

namespace SiteRepository

/-- sites/repositories.SiteRepository.get_site_by_id. -/
def get_site_by_id (sites : List Site) (i : Nat) : Option Site :=
  sites.find? (fun s => s.site_id == i)

/-- sites/repositories.SiteRepository.get_site_by_name. -/
def get_site_by_name (sites : List Site) (n : String) : Option Site :=
  sites.find? (fun s => s.name == n)

/-- sites/repositories.SiteRepository.create_site: build the row from the
dict, commit it, and return it; the primary key comes from the autoincrement
counter. -/
def create_site (db : DB) (data : SiteData) : DB × Site :=
  let site : Site :=
    { site_id := db.next_site_id, name := data.name.getD "",
      description := data.description.getD "",
      is_active := data.is_active.getD true }
  ({ db with sites := db.sites ++ [site],
             next_site_id := db.next_site_id + 1 }, site)

/-- The membership pair predicate used by every user-site lookup. -/
def pairMatch (uid sid : Nat) (m : UserSite) : Bool :=
  m.user_id == uid && m.site_id == sid

/-- sites/repositories.SiteRepository.add_user_to_site: when the pair
already exists the existing association is returned untouched; otherwise a
new row is committed. -/
def add_user_to_site (db : DB) (uid sid : Nat) (role : String) :
    DB × Option UserSite :=
  match db.memberships.find? (pairMatch uid sid) with
  | some existing => (db, some existing)
  | none =>
    let user_site : UserSite := { user_id := uid, site_id := sid, role := role }
    ({ db with memberships := db.memberships ++ [user_site] },
     some user_site)

/-- sites/repositories.SiteRepository.remove_user_from_site: delete the
association row when it exists. -/
def remove_user_from_site (db : DB) (uid sid : Nat) : Bool × DB :=
  match db.memberships.find? (pairMatch uid sid) with
  | none => (false, db)
  | some _ =>
    (true, { db with
      memberships := listRemoveFirst db.memberships (pairMatch uid sid) })

/-- sites/repositories.SiteRepository.update_user_site_role: set the role on
the association row when it exists. -/
def update_user_site_role (db : DB) (uid sid : Nat) (new_role : String) :
    Option (DB × UserSite) :=
  match db.memberships.find? (pairMatch uid sid) with
  | none => none
  | some m =>
    some ({ db with
        memberships := listReplaceFirst db.memberships (pairMatch uid sid)
          (fun x => { x with role := new_role }) },
      { m with role := new_role })

/-- sites/repositories.SiteRepository.get_user_role_for_site. -/
def get_user_role_for_site (memberships : List UserSite) (uid sid : Nat) :
    Option String :=
  (memberships.find? (pairMatch uid sid)).map (fun m => m.role)

/-- sites/repositories.SiteRepository.get_site_users without pagination
parameters (as every service call site passes none): one user row per
membership of the site joined against the users table.  The ORDER BY
username clause is dropped; no caller of this path depends on row order. -/
def get_site_users_items (db : DB) (sid : Nat) : List User :=
  (db.memberships.filter (fun m => m.site_id == sid)).filterMap
    (fun m => db.users.find? (fun u => u.id == m.user_id))

end SiteRepository

namespace SiteService

/-- Role constants of sites/services. -/
def DEFAULT_SITE_ROLE : String := "user"

/-- Admin role name. -/
def ADMIN_ROLE : String := "admin"

/-- sites/services.SiteService.get_admin_count_for_site: walk the users of
the site and count those whose role lookup returns admin. -/
def get_admin_count_for_site (db : DB) (sid : Nat) : Nat :=
  (SiteRepository.get_site_users_items db sid).countP
    (fun u =>
      SiteRepository.get_user_role_for_site db.memberships u.id sid
        == some ADMIN_ROLE)

/-- sites/services.SiteService.create_site: a missing or empty name and a
duplicate name are rejected; otherwise the repository commits the site. -/
def create_site (db : DB) (data : SiteData) : Except ValueErr (DB × Site) :=
  match data.name with
  | none => .error .nameRequired
  | some n =>
    if n == "" then .error .nameRequired
    else if (SiteRepository.get_site_by_name db.sites n).isSome then
      .error .duplicateName
    else .ok (SiteRepository.create_site db data)

/-- sites/services.SiteService.add_user_to_site: the site must exist and the
lowercased role must be user or admin; then the repository adds the pair. -/
def add_user_to_site (db : DB) (uid sid : Nat) (role : String) :
    Except ValueErr (DB × Option UserSite) :=
  match SiteRepository.get_site_by_id db.sites sid with
  | none => .error .siteNotFound
  | some _ =>
    let r := str_tolower role
    if r ≠ DEFAULT_SITE_ROLE ∧ r ≠ ADMIN_ROLE then .error .invalidRole
    else .ok (SiteRepository.add_user_to_site db uid sid r)

/-- sites/services.SiteService.remove_user_from_site: a missing site returns
false; removing a user who holds the admin role while the admin count is at
most one is rejected with no mutation; otherwise the repository removes the
association. -/
def remove_user_from_site (db : DB) (uid sid : Nat) : Bool × DB :=
  match SiteRepository.get_site_by_id db.sites sid with
  | none => (false, db)
  | some _ =>
    if SiteRepository.get_user_role_for_site db.memberships uid sid
        == some ADMIN_ROLE
        ∧ get_admin_count_for_site db sid ≤ 1 then
      (false, db)
    else SiteRepository.remove_user_from_site db uid sid

/-- sites/services.SiteService.update_user_site_role: a missing site returns
none; an unknown role raises; demoting an admin while the admin count is at
most one raises; otherwise the repository updates the role.  The database
accompanies every non-raising outcome. -/
def update_user_site_role (db : DB) (uid sid : Nat) (new_role : String) :
    Except ValueErr (DB × Option UserSite) :=
  match SiteRepository.get_site_by_id db.sites sid with
  | none => .ok (db, none)
  | some _ =>
    let r := str_tolower new_role
    if r ≠ DEFAULT_SITE_ROLE ∧ r ≠ ADMIN_ROLE then .error .invalidRole
    else if SiteRepository.get_user_role_for_site db.memberships uid sid
          == some ADMIN_ROLE
        ∧ r ≠ ADMIN_ROLE
        ∧ get_admin_count_for_site db sid ≤ 1 then
      .error .lastAdmin
    else
      match SiteRepository.update_user_site_role db uid sid r with
      | none => .ok (db, none)
      | some (db1, us) => .ok (db1, some us)

end SiteService

namespace SiteControllers

/-- sites/controllers.create_site: service-level site creation, followed by a
second, separate call that grants the creating user the admin role on the
new site.  Each of the two steps commits on its own. -/
def create_site_flow (db : DB) (uid : Nat) (data : SiteData) :
    Except ValueErr (DB × Site) :=
  match SiteService.create_site db data with
  | .error e => .error e
  | .ok (db1, site) =>
    match SiteService.add_user_to_site db1 uid site.site_id "admin" with
    | .error e => .error e
    | .ok (db2, _) => .ok (db2, site)

end SiteControllers

namespace AuthService

/-- auth/services.AuthService.associate_user_with_site: user and site must
exist; an existing pair has its role overwritten in place; otherwise a new
association row is committed. -/
def associate_user_with_site (db : DB) (uid sid : Nat) (role : String) :
    Except ValueErr (DB × UserSite) :=
  if (db.users.find? (fun u => u.id == uid)).isNone then .error .userNotFound
  else if (db.sites.find? (fun s => s.site_id == sid)).isNone then
    .error .siteNotFound
  else
    match db.memberships.find? (SiteRepository.pairMatch uid sid) with
    | some existing =>
      .ok ({ db with
          memberships := listReplaceFirst db.memberships
            (SiteRepository.pairMatch uid sid)
            (fun m => { m with role := role }) },
        { existing with role := role })
    | none =>
      let user_site : UserSite :=
        { user_id := uid, site_id := sid, role := role }
      .ok ({ db with memberships := db.memberships ++ [user_site] },
        user_site)

end AuthService

/-- A membership row that makes its holder an admin of the given site. -/
def adminAt (sid : Nat) (m : UserSite) : Bool :=
  m.site_id == sid && m.role == "admin"

/-- The site has at least one admin membership. -/
def hasAdmin (memberships : List UserSite) (sid : Nat) : Bool :=
  memberships.any (adminAt sid)

/-- The uniqueness invariant of the user_site_mapping table: no two rows
share the (user id, site id) pair.  It is established by the existence
check of every membership-creating path. -/
def membershipPairsUnique (memberships : List UserSite) : Prop :=
  List.Pairwise
    (fun a b => ¬(a.user_id = b.user_id ∧ a.site_id = b.site_id))
    memberships

/-- Claim C7: token decoding returns none, never an exception, on a
malformed token, a signature mismatch, an expired token, or a token lacking
the required claims, and returns the payload exactly when the token is a
claim set signed with the verification secret, unexpired, and carrying the
exp, iat and jti claims.  The embedding is a total function into Option, so
every failure is the one value none and no failure reason is
distinguishable from the result. -/
theorem C7_decode_token_uniform (t : Token) (secret : String) (now : Nat)
    (p : Payload) :
    Security.decode_token t secret now = some p ↔
      (t = Token.signed p secret ∧
       (∃ e, p.exp = some e ∧ now < e) ∧
       p.iat.isSome = true ∧ p.jti.isSome = true) := by
  constructor
  · intro h
    cases t with
    | malformed => simp [Security.decode_token, jwtDecode] at h
    | signed q key =>
      by_cases hk : key = secret
      · subst hk
        cases hq : q.exp with
        | none => simp [Security.decode_token, jwtDecode, hq] at h
        | some e =>
          by_cases he : e ≤ now
          · simp [Security.decode_token, jwtDecode, hq, he] at h
          · unfold Security.decode_token at h
            rw [show jwtDecode (Token.signed q key) key now = .ok q
              from by simp [jwtDecode, hq, he]] at h
            have h3 : (if q.exp.isSome = true ∧ q.iat.isSome = true
                ∧ q.jti.isSome = true then (some q : Option Payload)
                else none) = some p := h
            by_cases hc : q.exp.isSome = true ∧ q.iat.isSome = true
                ∧ q.jti.isSome = true
            · rw [if_pos hc] at h3
              obtain ⟨hexp, hiat, hjti⟩ := hc
              have hqp : q = p := by injection h3
              subst hqp
              exact ⟨rfl, ⟨e, hq, Nat.lt_of_not_le he⟩, hiat, hjti⟩
            · rw [if_neg hc] at h3
              cases h3
      · simp [Security.decode_token, jwtDecode, hk] at h
  · rintro ⟨ht, ⟨e, hexp, he⟩, hiat, hjti⟩
    subst ht
    simp [Security.decode_token, jwtDecode, hexp, Nat.not_le_of_lt he,
      hiat, hjti]

/-- Claim C7 witness: the characterization applied at a concrete valid token
and a concrete expired one. -/
theorem C7_decode_token_uniform_witness :
    Security.decode_token
      (Token.signed
        { exp := some 100, iat := some 0, jti := some "j" } "k") "k" 7
      = some { exp := some 100, iat := some 0, jti := some "j" } :=
  (C7_decode_token_uniform _ "k" 7 _).mpr
    ⟨rfl, ⟨100, rfl, by decide⟩, rfl, rfl⟩

/-- Claim C8: with a non-empty site-id list in the token payload, a
requested site id contained in the list resolves the active context to that
id; a requested site id outside the list produces no context, and the
middleware then rejects the request with the 403 authorization abort; with
no requested site id the context defaults to the first site id of the
list. -/
theorem C8_site_context_resolution (p : Payload) (first : Nat)
    (rest : List Nat) (hp : p.site_ids = some (first :: rest)) :
    (∀ s, s ∈ first :: rest →
      AuthUtils.get_site_context p (some s)
        = some { id := s, available_sites := first :: rest }) ∧
    (∀ s, s ∉ first :: rest →
      AuthUtils.get_site_context p (some s) = none ∧
      ∀ (users : List User) (blacklist : List Token) (secret : String)
        (now : Nat) (req : Middleware.Request) (t : Token) (u : User),
        Middleware.PUBLIC_ROUTES.contains req.endpoint = false →
        Middleware.get_token_from_request req = some t →
        AuthUtils.validate_auth_token blacklist t secret now = some p →
        AuthUtils.get_user_from_token users p = some u →
        u.is_active = true →
        req.site_id_param = some s →
        Middleware.auth_middleware users blacklist secret now req
          = .abort403) ∧
    (AuthUtils.get_site_context p none
      = some { id := first, available_sites := first :: rest }) := by
  have hshape : ∀ s : Nat, AuthUtils.get_site_context p (some s)
      = if (first :: rest).contains s = true
        then some { id := s, available_sites := first :: rest } else none := by
    intro s
    unfold AuthUtils.get_site_context
    rw [hp]
    rfl
  refine ⟨?_, ?_, ?_⟩
  · intro s hs
    have hcont : (first :: rest).contains s = true := by simpa using hs
    rw [hshape s, hcont]
    simp
  · intro s hs
    have hcont : (first :: rest).contains s = false := by simpa using hs
    have hctx : AuthUtils.get_site_context p (some s) = none := by
      rw [hshape s, hcont]
      simp
    refine ⟨hctx, ?_⟩
    intro users blacklist secret now req t u hpub htok hval huser hact hreq
    unfold Middleware.auth_middleware
    rw [hpub]
    simp only [Bool.false_eq_true, if_false, htok, hval, huser, hact]
    rw [hreq, hctx]
    simp
  · simp [AuthUtils.get_site_context, hp]

/-- Claim C8 witness: the three branches applied at the concrete payload
with site-id list [4, 9]: requested 9 resolves to 9, requested 5 is
rejected 403 by the middleware, and no request defaults to 4. -/
theorem C8_site_context_resolution_witness :
    AuthUtils.get_site_context { site_ids := some [4, 9] } (some 9)
      = some { id := 9, available_sites := [4, 9] } ∧
    Middleware.auth_middleware
      [{ id := 1, username := "a", email := "a", password_hash := "h" }]
      []
      "k" 0
      { endpoint := "interactions.list",
        header_token := some (Token.signed
          { sub := some 1, site_ids := some [4, 9], exp := some 100,
            iat := some 0, jti := some "j" } "k"),
        site_id_param := some 5 }
      = .abort403 ∧
    AuthUtils.get_site_context { site_ids := some [4, 9] } none
      = some { id := 4, available_sites := [4, 9] } := by
  have h9 := C8_site_context_resolution
    { site_ids := some [4, 9] } 4 [9] rfl
  have hmid := C8_site_context_resolution
    { sub := some 1, site_ids := some [4, 9], exp := some 100,
      iat := some 0, jti := some "j" } 4 [9] rfl
  refine ⟨h9.1 9 (by decide), ?_, h9.2.2⟩
  exact (hmid.2.1 5 (by decide)).2
    [{ id := 1, username := "a", email := "a", password_hash := "h" }]
    [] "k" 0
    { endpoint := "interactions.list",
      header_token := some (Token.signed
        { sub := some 1, site_ids := some [4, 9], exp := some 100,
          iat := some 0, jti := some "j" } "k"),
      site_id_param := some 5 }
    (Token.signed
      { sub := some 1, site_ids := some [4, 9], exp := some 100,
        iat := some 0, jti := some "j" } "k")
    { id := 1, username := "a", email := "a", password_hash := "h" }
    (by decide) rfl (by decide) (by decide) rfl rfl

/-- Claim C10: a user whose credentials verify but who has zero site
memberships is rejected at login with the Forbidden error and no token is
issued, and a payload whose site-id list is empty (or absent) never yields a
site context. -/
theorem C10_login_requires_site (verify : String → String → Bool)
    (db : DB) (r : Redis) (username password secret : String) (now : Nat)
    (freshJti : String) (user : User)
    (hlock : AuthService.is_account_locked r username = false)
    (hfind : db.users.find? (fun u => u.username == username) = some user)
    (hverify : verify password user.password_hash = true)
    (hmem : db.memberships.filter (fun m => m.user_id == user.id) = []) :
    (AuthService.login verify db r username password secret now
      freshJti).1 = .error .forbidden ∧
    ∀ (p : Payload) (requested : Option Nat), p.site_ids.getD [] = [] →
      AuthUtils.get_site_context p requested = none := by
  constructor
  · unfold AuthService.login
    rw [hlock, hfind]
    simp only [Bool.false_eq_true, if_false, hverify, not_true,
      Bool.true_eq_false]
    have hids : get_site_ids db.memberships user.id = [] := by
      unfold get_site_ids
      rw [hmem]
      rfl
    simp [hids]
  · intro p requested hgetd
    unfold AuthUtils.get_site_context
    rw [hgetd]

/-- Claim C10 witness: a concrete user with a matching password and no
memberships is refused with Forbidden, and the empty-site payload resolves
no context. -/
theorem C10_login_requires_site_witness :
    (AuthService.login (fun pw h => pw == h)
      { users := [{ id := 1, username := "alice", email := "a",
                    password_hash := "pw" }],
        sites := [], memberships := [], interactions := [] }
      [] "alice" "pw" "k" 0 "j").1 = .error .forbidden ∧
    AuthUtils.get_site_context { site_ids := some [] } none = none := by
  have h := C10_login_requires_site (fun pw h => pw == h)
    { users := [{ id := 1, username := "alice", email := "a",
                  password_hash := "pw" }],
      sites := [], memberships := [], interactions := [] }
    [] "alice" "pw" "k" 0 "j"
    { id := 1, username := "alice", email := "a", password_hash := "pw" }
    (by decide) (by decide) (by decide) rfl
  exact ⟨h.1, h.2 { site_ids := some [] } none rfl⟩

/-- Claim C1: when every stored interaction carrying the requested id has a
site outside the allowed list, get_by_id, update and delete all raise
ResourceNotFound, and the get_by_id outcome is identical to the outcome on a
table from which every row with that id has been removed: an out-of-scope
record is indistinguishable from an absent one, and no read, update or
delete of it ever succeeds. -/
theorem C1_out_of_scope_is_not_found (interactions : List Interaction)
    (i : Nat) (allowed : List Nat)
    (h : ∀ x ∈ interactions, x.interaction_id = i → x.site_id ∉ allowed) :
    InteractionRepository.get_by_id interactions i allowed
      = .error .resourceNotFound ∧
    InteractionRepository.get_by_id interactions i allowed
      = InteractionRepository.get_by_id
          (interactions.filter (fun x => x.interaction_id ≠ i)) i allowed ∧
    (∀ (d : InteractionRepository.UpdateData) (uid now : Nat),
      InteractionRepository.update interactions i d allowed uid now
        = .error .resourceNotFound) ∧
    InteractionRepository.delete interactions i allowed
      = .error .resourceNotFound := by
  have hnone :
      interactions.find? (InteractionRepository.scopedMatch i allowed)
        = none := by
    rw [List.find?_eq_none]
    intro x hx
    simpa [InteractionRepository.scopedMatch] using h x hx
  have hget : InteractionRepository.get_by_id interactions i allowed
      = .error .resourceNotFound := by
    unfold InteractionRepository.get_by_id
    rw [hnone]
  have hnone2 :
      (interactions.filter (fun x => x.interaction_id ≠ i)).find?
        (InteractionRepository.scopedMatch i allowed) = none := by
    rw [List.find?_eq_none]
    intro x hx
    have hne : x.interaction_id ≠ i := by
      have := (List.mem_filter.mp hx).2
      simpa using this
    simp [InteractionRepository.scopedMatch, hne]
  have hget2 : InteractionRepository.get_by_id
      (interactions.filter (fun x => x.interaction_id ≠ i)) i allowed
      = .error .resourceNotFound := by
    unfold InteractionRepository.get_by_id
    rw [hnone2]
  refine ⟨hget, by rw [hget, hget2], ?_, ?_⟩
  · intro d uid now
    unfold InteractionRepository.update
    rw [hget]
  · unfold InteractionRepository.delete
    rw [hget]

/-- Claim C1 witness: a stored interaction in site 2 is invisible to a
caller scoped to site 1: lookup, update and delete all answer
ResourceNotFound. -/
theorem C1_out_of_scope_is_not_found_witness :
    InteractionRepository.get_by_id
      [{ interaction_id := 1, site_id := 2, title := "t", typ := "Meeting",
         lead := "l", start_datetime := 0, timezone := "UTC",
         created_by := 1, created_at := 0, updated_by := 1,
         updated_at := 0 }] 1 [1]
      = .error .resourceNotFound ∧
    InteractionRepository.update
      [{ interaction_id := 1, site_id := 2, title := "t", typ := "Meeting",
         lead := "l", start_datetime := 0, timezone := "UTC",
         created_by := 1, created_at := 0, updated_by := 1,
         updated_at := 0 }] 1 {} [1] 7 50
      = .error .resourceNotFound ∧
    InteractionRepository.delete
      [{ interaction_id := 1, site_id := 2, title := "t", typ := "Meeting",
         lead := "l", start_datetime := 0, timezone := "UTC",
         created_by := 1, created_at := 0, updated_by := 1,
         updated_at := 0 }] 1 [1]
      = .error .resourceNotFound := by
  have h := C1_out_of_scope_is_not_found
    [{ interaction_id := 1, site_id := 2, title := "t", typ := "Meeting",
       lead := "l", start_datetime := 0, timezone := "UTC",
       created_by := 1, created_at := 0, updated_by := 1,
       updated_at := 0 }] 1 [1] (by decide)
  exact ⟨h.1, h.2.2.1 {} 7 50, h.2.2.2⟩

/-- Claim C6 counterexample: the setattr loop of InteractionRepository.update
sets every attribute whose key is present in the dict, site_id included.  A
payload carrying a site_id key moves the interaction from site 1 to site 2,
so site_id is not preserved for every update payload. -/
theorem C6_counterexample_site_id_overwritten :
    InteractionRepository.update
      [{ interaction_id := 1, site_id := 1, title := "t", typ := "Meeting",
         lead := "l", start_datetime := 0, timezone := "UTC",
         created_by := 1, created_at := 0, updated_by := 1,
         updated_at := 0 }]
      1 { site_id := some 2 } [1] 7 50
      = .ok
        ([{ interaction_id := 1, site_id := 2, title := "t",
            typ := "Meeting", lead := "l", start_datetime := 0,
            timezone := "UTC", created_by := 1, created_at := 0,
            updated_by := 7, updated_at := 50 }],
         { interaction_id := 1, site_id := 2, title := "t",
           typ := "Meeting", lead := "l", start_datetime := 0,
           timezone := "UTC", created_by := 1, created_at := 0,
           updated_by := 7, updated_at := 50 }) := by
  rfl

/-- Claim C6 (amended): for every update payload without a site_id key — in
particular every payload validated by InteractionUpdateSchema, which
declares no site_id field — the updated row keeps the site_id it had before
the call, whatever other keys the payload contains. -/
theorem C6_update_preserves_site_id (interactions : List Interaction)
    (i : Nat) (d : InteractionRepository.UpdateData) (allowed : List Nat)
    (uid now : Nat) (x : Interaction) (l : List Interaction)
    (x1 : Interaction)
    (hd : d.site_id = none)
    (hget : InteractionRepository.get_by_id interactions i allowed = .ok x)
    (hupd : InteractionRepository.update interactions i d allowed uid now
      = .ok (l, x1)) :
    x1.site_id = x.site_id := by
  unfold InteractionRepository.update at hupd
  rw [hget] at hupd
  have hx1 : x1 = { InteractionRepository.applyUpdate x d with
      updated_by := uid, updated_at := now } := by
    have := congrArg (fun r => match r with
      | Except.ok (p : List Interaction × Interaction) => p.2
      | Except.error _ => x1) hupd
    simpa using this.symm
  rw [hx1]
  simp [InteractionRepository.applyUpdate, hd]

/-- Claim C6 witness: a payload updating only the title leaves site_id
untouched, by the amended theorem applied at a concrete table and
payload. -/
theorem C6_update_preserves_site_id_witness :
    ({ interaction_id := 1, site_id := 1, title := "new", typ := "Meeting",
       lead := "l", start_datetime := 0, timezone := "UTC",
       created_by := 1, created_at := 0, updated_by := 7,
       updated_at := 50 } : Interaction).site_id
    = ({ interaction_id := 1, site_id := 1, title := "t", typ := "Meeting",
         lead := "l", start_datetime := 0, timezone := "UTC",
         created_by := 1, created_at := 0, updated_by := 1,
         updated_at := 0 } : Interaction).site_id :=
  C6_update_preserves_site_id
    [{ interaction_id := 1, site_id := 1, title := "t", typ := "Meeting",
       lead := "l", start_datetime := 0, timezone := "UTC",
       created_by := 1, created_at := 0, updated_by := 1,
       updated_at := 0 }]
    1 { title := some "new" } [1] 7 50
    { interaction_id := 1, site_id := 1, title := "t", typ := "Meeting",
      lead := "l", start_datetime := 0, timezone := "UTC",
      created_by := 1, created_at := 0, updated_by := 1,
      updated_at := 0 }
    [{ interaction_id := 1, site_id := 1, title := "new", typ := "Meeting",
       lead := "l", start_datetime := 0, timezone := "UTC",
       created_by := 1, created_at := 0, updated_by := 7,
       updated_at := 50 }]
    { interaction_id := 1, site_id := 1, title := "new", typ := "Meeting",
      lead := "l", start_datetime := 0, timezone := "UTC",
      created_by := 1, created_at := 0, updated_by := 7,
      updated_at := 50 }
    rfl rfl rfl

/-- Claim C3 failing run: logout of a valid token records its jti in Redis
under token:blacklist:j1, yet the per-request authentication path still
accepts the very same token afterwards: validate_auth_token consults only
the process-local blacklist set, which logout never updates, so the
middleware authenticates the request; and even the flask-jwt-extended
blocklist callback reads the key prefix token_blacklist: and misses the
entry that logout wrote.  The claim (and the test suite) require the
request to be rejected 401 after logout. -/
theorem C3_logged_out_token_still_accepted :
    AuthService.logout []
      (Token.signed
        { sub := some 1, site_ids := some [1], exp := some 100,
          iat := some 0, jti := some "j1" } "k") "k" 0
      = some [("token:blacklist:j1", "1")] ∧
    AuthService.is_token_blacklisted [("token:blacklist:j1", "1")] "j1"
      = true ∧
    AuthUtils.validate_auth_token []
      (Token.signed
        { sub := some 1, site_ids := some [1], exp := some 100,
          iat := some 0, jti := some "j1" } "k") "k" 0
      = some { sub := some 1, site_ids := some [1], exp := some 100,
               iat := some 0, jti := some "j1" } ∧
    Middleware.auth_middleware
      [{ id := 1, username := "alice", email := "a",
         password_hash := "h" }] [] "k" 0
      { endpoint := "interactions.list",
        header_token := some (Token.signed
          { sub := some 1, site_ids := some [1], exp := some 100,
            iat := some 0, jti := some "j1" } "k") }
      = .authed
          { id := 1, username := "alice", email := "a",
            password_hash := "h" }
          { id := 1, available_sites := [1] } ∧
    Extensions.is_token_blacklisted [("token:blacklist:j1", "1")]
      { sub := some 1, site_ids := some [1], exp := some 100,
        iat := some 0, jti := some "j1" } = false := by
  refine ⟨rfl, rfl, by decide, by decide, by decide⟩

/-- Replacing the first match with a predicate-preserving function maps the
found element. -/
theorem find?_listReplaceFirst {α : Type} (l : List α) (p : α → Bool)
    (f : α → α) (hf : ∀ x, p (f x) = p x) :
    (listReplaceFirst l p f).find? p = (l.find? p).map f := by
  induction l with
  | nil => rfl
  | cons x xs ih =>
    by_cases hpx : p x = true
    · simp [listReplaceFirst, hpx, List.find?_cons, hf]
    · have hpx2 : p x = false := by
        cases hv : p x
        · rfl
        · exact absurd hv hpx
      simp [listReplaceFirst, hpx2, List.find?_cons, ih]

/-- Claim C4 counterexample: with an existing membership of role user on the
pair, both the repository add_user_to_site and the service wrapper return
the existing association with its old role and leave the state untouched:
the role is not updated to the requested admin role, contradicting the
claim that the call updates the role of an existing pair. -/
theorem C4_counterexample_role_not_updated :
    SiteRepository.add_user_to_site
      { users := [{ id := 1, username := "a", email := "a",
                    password_hash := "h" }],
        sites := [{ site_id := 1, name := "HQ" }],
        memberships := [{ user_id := 1, site_id := 1, role := "user" }],
        interactions := [] } 1 1 "admin"
      = ({ users := [{ id := 1, username := "a", email := "a",
                       password_hash := "h" }],
           sites := [{ site_id := 1, name := "HQ" }],
           memberships := [{ user_id := 1, site_id := 1, role := "user" }],
           interactions := [] },
         some { user_id := 1, site_id := 1, role := "user" }) ∧
    SiteService.add_user_to_site
      { users := [{ id := 1, username := "a", email := "a",
                    password_hash := "h" }],
        sites := [{ site_id := 1, name := "HQ" }],
        memberships := [{ user_id := 1, site_id := 1, role := "user" }],
        interactions := [] } 1 1 "admin"
      = .ok ({ users := [{ id := 1, username := "a", email := "a",
                           password_hash := "h" }],
               sites := [{ site_id := 1, name := "HQ" }],
               memberships := [{ user_id := 1, site_id := 1,
                                 role := "user" }],
               interactions := [] },
             some { user_id := 1, site_id := 1, role := "user" }) := by
  exact ⟨rfl, by decide⟩

/-- Claim C4 (amended): SiteRepository.add_user_to_site is idempotent in the
row count but does not touch the role: when the pair exists it returns the
existing association unchanged without erroring, and calling it twice for a
pair that was absent leaves exactly one membership row for the pair.  The
variant that does overwrite the role of an existing pair is
AuthService.associate_user_with_site. -/
theorem C4_add_member_idempotent (db : DB) (uid sid : Nat) (role : String) :
    (∀ m, db.memberships.find? (SiteRepository.pairMatch uid sid) = some m →
      SiteRepository.add_user_to_site db uid sid role = (db, some m)) ∧
    (db.memberships.countP (SiteRepository.pairMatch uid sid) = 0 →
      (((SiteRepository.add_user_to_site
          (SiteRepository.add_user_to_site db uid sid role).1
          uid sid role).1).memberships.countP
        (SiteRepository.pairMatch uid sid)) = 1) ∧
    (∀ m, db.memberships.find? (SiteRepository.pairMatch uid sid) = some m →
      (db.users.find? (fun u => u.id == uid)).isSome = true →
      (db.sites.find? (fun s => s.site_id == sid)).isSome = true →
      ∃ db1, AuthService.associate_user_with_site db uid sid role
          = .ok (db1, { m with role := role }) ∧
        SiteRepository.get_user_role_for_site db1.memberships uid sid
          = some role) := by
  refine ⟨?_, ?_, ?_⟩
  · intro m hm
    unfold SiteRepository.add_user_to_site
    rw [hm]
  · intro hcount
    have hnone : db.memberships.find? (SiteRepository.pairMatch uid sid)
        = none := by
      rw [List.find?_eq_none]
      intro x hx
      have := List.countP_eq_zero.mp hcount x hx
      simpa using this
    have hpairnew : SiteRepository.pairMatch uid sid
        (⟨uid, sid, role⟩ : UserSite) = true := by
      simp [SiteRepository.pairMatch]
    have h1 : SiteRepository.add_user_to_site db uid sid role
        = ({ db with
             memberships := db.memberships ++ [⟨uid, sid, role⟩] },
           some (⟨uid, sid, role⟩ : UserSite)) := by
      unfold SiteRepository.add_user_to_site
      rw [hnone]
    have h2 : (db.memberships ++ [(⟨uid, sid, role⟩ : UserSite)]).find?
        (SiteRepository.pairMatch uid sid)
        = some (⟨uid, sid, role⟩ : UserSite) := by
      rw [List.find?_append, hnone]
      simp [hpairnew]
    have h3 : SiteRepository.add_user_to_site
        { db with memberships := db.memberships ++ [⟨uid, sid, role⟩] }
        uid sid role
        = ({ db with
             memberships := db.memberships ++ [⟨uid, sid, role⟩] },
           some (⟨uid, sid, role⟩ : UserSite)) := by
      unfold SiteRepository.add_user_to_site
      rw [show ({ db with
          memberships := db.memberships ++ [⟨uid, sid, role⟩] } :
            DB).memberships
          = db.memberships ++ [⟨uid, sid, role⟩] from rfl, h2]
    rw [h1, h3]
    rw [List.countP_append, hcount]
    simp [hpairnew]
  · intro m hm hu hs
    refine ⟨{ db with
      memberships := listReplaceFirst db.memberships
        (SiteRepository.pairMatch uid sid)
        (fun x => { x with role := role }) }, ?_, ?_⟩
    · unfold AuthService.associate_user_with_site
      rw [hm]
      simp only [Option.isSome_iff_exists] at hu hs
      obtain ⟨u, hu⟩ := hu
      obtain ⟨s, hs⟩ := hs
      simp [hu, hs]
    · unfold SiteRepository.get_user_role_for_site
      rw [find?_listReplaceFirst _ _ _
        (by intro x; simp [SiteRepository.pairMatch])]
      rw [hm]
      rfl

/-- Claim C4 witness: the amended behaviors at a concrete state: the
existing (1, 1) pair of role user is returned unchanged, a double add of the
absent pair (2, 1) leaves one row, and associate_user_with_site overwrites
the existing role with admin. -/
theorem C4_add_member_idempotent_witness :
    SiteRepository.add_user_to_site
      { users := [{ id := 1, username := "a", email := "a",
                    password_hash := "h" }],
        sites := [{ site_id := 1, name := "HQ" }],
        memberships := [{ user_id := 1, site_id := 1, role := "user" }],
        interactions := [] } 1 1 "user"
      = ({ users := [{ id := 1, username := "a", email := "a",
                       password_hash := "h" }],
           sites := [{ site_id := 1, name := "HQ" }],
           memberships := [{ user_id := 1, site_id := 1, role := "user" }],
           interactions := [] },
         some { user_id := 1, site_id := 1, role := "user" }) ∧
    (((SiteRepository.add_user_to_site
        (SiteRepository.add_user_to_site
          { users := [{ id := 1, username := "a", email := "a",
                        password_hash := "h" }],
            sites := [{ site_id := 1, name := "HQ" }],
            memberships := [{ user_id := 1, site_id := 1, role := "user" }],
            interactions := [] } 2 1 "user").1
        2 1 "user").1).memberships.countP
      (SiteRepository.pairMatch 2 1)) = 1 ∧
    ∃ db1, AuthService.associate_user_with_site
        { users := [{ id := 1, username := "a", email := "a",
                      password_hash := "h" }],
          sites := [{ site_id := 1, name := "HQ" }],
          memberships := [{ user_id := 1, site_id := 1, role := "user" }],
          interactions := [] } 1 1 "admin"
        = .ok (db1, { user_id := 1, site_id := 1, role := "admin" }) ∧
      SiteRepository.get_user_role_for_site db1.memberships 1 1
        = some "admin" := by
  refine ⟨?_, ?_, ?_⟩
  · exact (C4_add_member_idempotent
      { users := [{ id := 1, username := "a", email := "a",
                    password_hash := "h" }],
        sites := [{ site_id := 1, name := "HQ" }],
        memberships := [{ user_id := 1, site_id := 1, role := "user" }],
        interactions := [] } 1 1 "user").1
      { user_id := 1, site_id := 1, role := "user" } rfl
  · exact (C4_add_member_idempotent
      { users := [{ id := 1, username := "a", email := "a",
                    password_hash := "h" }],
        sites := [{ site_id := 1, name := "HQ" }],
        memberships := [{ user_id := 1, site_id := 1, role := "user" }],
        interactions := [] } 2 1 "user").2.1 (by decide)
  · exact (C4_add_member_idempotent
      { users := [{ id := 1, username := "a", email := "a",
                    password_hash := "h" }],
        sites := [{ site_id := 1, name := "HQ" }],
        memberships := [{ user_id := 1, site_id := 1, role := "user" }],
        interactions := [] } 1 1 "admin").2.2
      { user_id := 1, site_id := 1, role := "user" } rfl rfl rfl

/-- An ordered insertion grows the length by one. -/
theorem length_orderedInsert {α : Type} (le : α → α → Bool) (x : α)
    (l : List α) : (orderedInsert le x l).length = l.length + 1 := by
  induction l with
  | nil => rfl
  | cons y ys ih =>
    by_cases h : le x y = true
    · simp [orderedInsert, h]
    · simp [orderedInsert, h, ih]

/-- The ORDER BY model preserves the number of rows. -/
theorem length_sortRows {α : Type} (le : α → α → Bool) (l : List α) :
    (sortRows le l).length = l.length := by
  induction l with
  | nil => rfl
  | cons x xs ih => simp [sortRows, length_orderedInsert, ih]

/-- A positive count never exceeds its ceiling-quotient times the
divisor. -/
theorem le_ceil_mul (total ps : Nat) (hps : 1 ≤ ps) :
    total ≤ ((total + ps - 1) / ps) * ps := by
  by_contra hlt
  push_neg at hlt
  have hstep : ((total + ps - 1) / ps + 1) * ps ≤ total + ps - 1 := by
    have h1 : ((total + ps - 1) / ps) * ps + ps ≤ total + ps - 1 := by
      omega
    calc ((total + ps - 1) / ps + 1) * ps
        = ((total + ps - 1) / ps) * ps + ps := by ring
      _ ≤ total + ps - 1 := h1
  have h2 : (total + ps - 1) / ps + 1 ≤ (total + ps - 1) / ps :=
    (Nat.le_div_iff_mul_le (by omega)).mpr hstep
  omega

/-- Claim C9: a requested page_size above the configured maximum of 100 is
clamped to 100 and never rejected, and a page number beyond the last page of
results yields an empty item list together with the exact total count and
the total_pages value computed from it, not an error. -/
theorem C9_pagination_boundaries :
    (∀ (page : Option Int) (pp : Int), 100 < pp →
      Validators.validate_pagination_params page (some pp)
        = ((Validators.validate_pagination_params page (some pp)).1,
           100)) ∧
    (∀ (interactions : List Interaction) (allowed : List Nat)
       (page page_size : Nat) (dir : String),
      1 ≤ page_size →
      (InteractionRepository.get_all interactions allowed page page_size
        dir).total_pages < page →
      (InteractionRepository.get_all interactions allowed page page_size
        dir).items = [] ∧
      (InteractionRepository.get_all interactions allowed page page_size
        dir).total
        = (interactions.filter
            (fun x => allowed.contains x.site_id)).length ∧
      (InteractionRepository.get_all interactions allowed page page_size
        dir).total_pages
        = (if 0 < (interactions.filter
              (fun x => allowed.contains x.site_id)).length
           then ((interactions.filter
              (fun x => allowed.contains x.site_id)).length
              + page_size - 1) / page_size
           else 1)) := by
  constructor
  · intro page pp hpp
    unfold Validators.validate_pagination_params
    have h1 : (0 : Int) < pp := by omega
    have h2 : min pp Validators.MAX_PER_PAGE = 100 := by
      unfold Validators.MAX_PER_PAGE
      omega
    simp only [h1, if_pos, h2]
  · intro interactions allowed page page_size dir hps hbeyond
    set filtered := interactions.filter (fun x => allowed.contains x.site_id)
      with hfiltered
    have hlen : ∀ le : Interaction → Interaction → Bool,
        (sortRows le filtered).length = filtered.length :=
      fun le => length_sortRows le filtered
    have htp : (InteractionRepository.get_all interactions allowed page
        page_size dir).total_pages
        = (if 0 < filtered.length
           then (filtered.length + page_size - 1) / page_size else 1) := by
      unfold InteractionRepository.get_all
        Pagination.PaginatedResult.make
      rfl
    have htotal : (InteractionRepository.get_all interactions allowed page
        page_size dir).total = filtered.length := by
      unfold InteractionRepository.get_all
        Pagination.PaginatedResult.make
      rfl
    refine ⟨?_, htotal, htp⟩
    rw [htp] at hbeyond
    have hoffset : filtered.length ≤ (page - 1) * page_size := by
      by_cases hz : 0 < filtered.length
      · rw [if_pos hz] at hbeyond
        have h1 : (filtered.length + page_size - 1) / page_size ≤ page - 1 :=
          by omega
        calc filtered.length
            ≤ ((filtered.length + page_size - 1) / page_size) * page_size :=
              le_ceil_mul filtered.length page_size hps
          _ ≤ (page - 1) * page_size :=
              Nat.mul_le_mul_right page_size h1
      · omega
    have hitems : (InteractionRepository.get_all interactions allowed page
        page_size dir).items
        = ((if str_tolower dir == "desc" then
              sortRows (fun a b => b.created_at ≤ a.created_at) filtered
            else
              sortRows (fun a b => a.created_at ≤ b.created_at)
                filtered).drop
            ((page - 1) * page_size)).take page_size := by
      unfold InteractionRepository.get_all
        Pagination.PaginatedResult.make
      rfl
    rw [hitems]
    by_cases hdir : str_tolower dir == "desc"
    · rw [if_pos hdir]
      rw [List.drop_eq_nil_of_le (by rw [hlen]; exact hoffset)]
      exact List.take_nil
    · rw [if_neg hdir]
      rw [List.drop_eq_nil_of_le (by rw [hlen]; exact hoffset)]
      exact List.take_nil

/-- Claim C9 witness: page_size 250 is clamped to 100, and page 5 of a
one-row table with page_size 2 returns no items, total 1 and one total
page. -/
theorem C9_pagination_boundaries_witness :
    Validators.validate_pagination_params (some 1) (some 250) = (1, 100) ∧
    (InteractionRepository.get_all
      [{ interaction_id := 1, site_id := 1, title := "t", typ := "Meeting",
         lead := "l", start_datetime := 0, timezone := "UTC",
         created_by := 1, created_at := 0, updated_by := 1,
         updated_at := 0 }] [1] 5 2 "desc").items = [] ∧
    (InteractionRepository.get_all
      [{ interaction_id := 1, site_id := 1, title := "t", typ := "Meeting",
         lead := "l", start_datetime := 0, timezone := "UTC",
         created_by := 1, created_at := 0, updated_by := 1,
         updated_at := 0 }] [1] 5 2 "desc").total = 1 ∧
    (InteractionRepository.get_all
      [{ interaction_id := 1, site_id := 1, title := "t", typ := "Meeting",
         lead := "l", start_datetime := 0, timezone := "UTC",
         created_by := 1, created_at := 0, updated_by := 1,
         updated_at := 0 }] [1] 5 2 "desc").total_pages = 1 := by
  have h := C9_pagination_boundaries
  have ha := h.1 (some 1) 250 (by omega)
  have hb := h.2
    [{ interaction_id := 1, site_id := 1, title := "t", typ := "Meeting",
       lead := "l", start_datetime := 0, timezone := "UTC",
       created_by := 1, created_at := 0, updated_by := 1,
       updated_at := 0 }] [1] 5 2 "desc" (by omega) (by decide)
  refine ⟨?_, hb.1, hb.2.1.trans (by decide), hb.2.2.trans (by decide)⟩
  rw [ha]
  rfl

/-- Claim C5 counterexample: SiteService.create_site commits the site row on
its own, before the controller runs the separate membership grant, so the
claimed transactionality fails: right after the service call there is a
committed state in which the new site exists and carries zero
memberships. -/
theorem C5_counterexample_site_committed_without_members :
    SiteService.create_site
      { users := [{ id := 1, username := "a", email := "a",
                    password_hash := "h" }],
        sites := [], memberships := [], interactions := [],
        next_site_id := 1 }
      { name := some "HQ" }
      = .ok ({ users := [{ id := 1, username := "a", email := "a",
                           password_hash := "h" }],
               sites := [{ site_id := 1, name := "HQ" }],
               memberships := [], interactions := [],
               next_site_id := 2 },
             { site_id := 1, name := "HQ" }) ∧
    ({ site_id := 1, name := "HQ" } : Site)
      ∈ ([{ site_id := 1, name := "HQ" }] : List Site) ∧
    (([] : List UserSite).filter (fun m => m.site_id == 1)) = [] := by
  refine ⟨by decide, by decide, rfl⟩

/-- Claim C5 (amended): create_site rejects a duplicate site name, and a
successful run of the controller flow leaves the creating user with an
admin membership on the new site — granted by a second, separate commit
after the site row is already committed, not transactionally with it (the
counterexample exhibits the intermediate committed state with zero
members).  Freshness of the autoincrement id is the standing hypothesis
that no membership row already references the not-yet-assigned site id. -/
theorem C5_create_site_duplicate_and_admin_grant (db : DB) (uid : Nat)
    (data : SiteData) :
    (∀ n s, data.name = some n → n ≠ "" →
      SiteRepository.get_site_by_name db.sites n = some s →
      SiteService.create_site db data = .error .duplicateName ∧
      SiteControllers.create_site_flow db uid data
        = .error .duplicateName) ∧
    (∀ db2 site,
      (∀ m, m ∈ db.memberships → m.site_id ≠ db.next_site_id) →
      SiteControllers.create_site_flow db uid data = .ok (db2, site) →
      db2.memberships = db.memberships
        ++ [{ user_id := uid, site_id := site.site_id, role := "admin" }] ∧
      site ∈ db2.sites) := by
  constructor
  · intro n s hn hne hs
    have hserr : SiteService.create_site db data = .error .duplicateName := by
      unfold SiteService.create_site
      rw [hn]
      dsimp only
      have hemp : (n == "") = false := by simpa using hne
      rw [if_neg (by simp [hemp]), hs]
      simp
    refine ⟨hserr, ?_⟩
    unfold SiteControllers.create_site_flow
    rw [hserr]
  · intro db2 site hfresh hflow
    unfold SiteControllers.create_site_flow at hflow
    cases hcs : SiteService.create_site db data with
    | error e => rw [hcs] at hflow; cases hflow
    | ok pair =>
      obtain ⟨db1, s1⟩ := pair
      rw [hcs] at hflow
      dsimp only at hflow
      have hfacts : db1.memberships = db.memberships
          ∧ db1.sites = db.sites ++ [s1]
          ∧ s1.site_id = db.next_site_id := by
        unfold SiteService.create_site at hcs
        cases hname : data.name with
        | none => rw [hname] at hcs; cases hcs
        | some n =>
          rw [hname] at hcs
          dsimp only at hcs
          by_cases hemp : (n == "") = true
          · rw [if_pos hemp] at hcs
            cases hcs
          · rw [if_neg hemp] at hcs
            by_cases hdup :
                (SiteRepository.get_site_by_name db.sites n).isSome = true
            · rw [if_pos hdup] at hcs
              cases hcs
            · rw [if_neg hdup] at hcs
              have h1 : SiteRepository.create_site db data = (db1, s1) := by
                injection hcs
              unfold SiteRepository.create_site at h1
              rw [Prod.ext_iff] at h1
              simp only at h1
              obtain ⟨hA, hB⟩ := h1
              refine ⟨?_, ?_, ?_⟩
              · rw [← hA]
              · rw [← hA, hB]
              · rw [← hB]
      obtain ⟨hmem1, hsites1, hsid⟩ := hfacts
      have hfound : ∃ z, SiteRepository.get_site_by_id db1.sites s1.site_id
          = some z := by
        unfold SiteRepository.get_site_by_id
        rw [hsites1, List.find?_append]
        cases h : db.sites.find? (fun s => s.site_id == s1.site_id) with
        | some z => exact ⟨z, by simp [h]⟩
        | none => exact ⟨s1, by simp [h]⟩
      obtain ⟨z, hz⟩ := hfound
      have hnone : db1.memberships.find?
          (SiteRepository.pairMatch uid s1.site_id) = none := by
        rw [hmem1, List.find?_eq_none]
        intro m hm
        simp only [SiteRepository.pairMatch, Bool.and_eq_true, beq_iff_eq,
          not_and]
        intro _
        rw [hsid]
        exact fun hcontra => hfresh m hm hcontra
      have hadd : SiteService.add_user_to_site db1 uid s1.site_id "admin"
          = .ok
            ({ db1 with memberships := db1.memberships ++
                [{ user_id := uid, site_id := s1.site_id, role := "admin" }] },
             some { user_id := uid, site_id := s1.site_id, role := "admin" })
          := by
        unfold SiteService.add_user_to_site
        rw [hz]
        dsimp only
        rw [if_neg (by decide :
          ¬(str_tolower "admin" ≠ SiteService.DEFAULT_SITE_ROLE
            ∧ str_tolower "admin" ≠ SiteService.ADMIN_ROLE))]
        unfold SiteRepository.add_user_to_site
        rw [hnone]
        rw [show str_tolower "admin" = "admin" from by decide]
      rw [hadd] at hflow
      have hpair :
          ({ db1 with memberships := db1.memberships ++
              [{ user_id := uid, site_id := s1.site_id, role := "admin" }] }
            : DB) = db2 ∧ s1 = site := by
        have h := hflow
        injection h with h2
        injection h2 with h3 h4
        exact ⟨h3, h4⟩
      obtain ⟨hdb2, hsite⟩ := hpair
      subst hsite
      constructor
      · rw [← hdb2]
        dsimp only
        rw [hmem1]
      · rw [← hdb2]
        dsimp only
        rw [hsites1]
        simp


/-- Claim C5 witness: the duplicate name HQ is rejected on a store already
holding a site named HQ, and the flow on an empty store ends with the
creating user holding the admin membership of the new site. -/
theorem C5_create_site_duplicate_and_admin_grant_witness :
    SiteControllers.create_site_flow
      { users := [{ id := 1, username := "a", email := "a",
                    password_hash := "h" }],
        sites := [{ site_id := 1, name := "HQ" }],
        memberships := [], interactions := [], next_site_id := 2 }
      1 { name := some "HQ" } = .error .duplicateName ∧
    (({ users := [{ id := 1, username := "a", email := "a",
                    password_hash := "h" }],
        sites := [{ site_id := 1, name := "HQ" }],
        memberships := [{ user_id := 1, site_id := 1, role := "admin" }],
        interactions := [], next_site_id := 2 } : DB).memberships
      = ({ users := [{ id := 1, username := "a", email := "a",
                       password_hash := "h" }],
           sites := [], memberships := [], interactions := [],
           next_site_id := 1 } : DB).memberships
        ++ [{ user_id := 1,
              site_id := ({ site_id := 1, name := "HQ" } : Site).site_id,
              role := "admin" }]) ∧
    ({ site_id := 1, name := "HQ" } : Site)
      ∈ ({ users := [{ id := 1, username := "a", email := "a",
                       password_hash := "h" }],
           sites := [{ site_id := 1, name := "HQ" }],
           memberships := [{ user_id := 1, site_id := 1,
                             role := "admin" }],
           interactions := [], next_site_id := 2 } : DB).sites := by
  have ha := (C5_create_site_duplicate_and_admin_grant
    { users := [{ id := 1, username := "a", email := "a",
                  password_hash := "h" }],
      sites := [{ site_id := 1, name := "HQ" }],
      memberships := [], interactions := [], next_site_id := 2 }
    1 { name := some "HQ" }).1 "HQ" { site_id := 1, name := "HQ" }
    rfl (by decide) (by decide)
  have hb := (C5_create_site_duplicate_and_admin_grant
    { users := [{ id := 1, username := "a", email := "a",
                  password_hash := "h" }],
      sites := [], memberships := [], interactions := [],
      next_site_id := 1 }
    1 { name := some "HQ" }).2
    { users := [{ id := 1, username := "a", email := "a",
                  password_hash := "h" }],
      sites := [{ site_id := 1, name := "HQ" }],
      memberships := [{ user_id := 1, site_id := 1, role := "admin" }],
      interactions := [], next_site_id := 2 }
    { site_id := 1, name := "HQ" }
    (by intro m hm; cases hm) (by decide)
  exact ⟨ha.2, hb.1, hb.2⟩

/-- Under the pair-uniqueness invariant, the lookup of a stored membership
row by its own pair finds exactly that row. -/
theorem find?_pairMatch_of_mem (ms : List UserSite)
    (hu : membershipPairsUnique ms) (m : UserSite) (hm : m ∈ ms) :
    ms.find? (SiteRepository.pairMatch m.user_id m.site_id) = some m := by
  induction ms with
  | nil => cases hm
  | cons x xs ih =>
    have hu2 := List.pairwise_cons.mp hu
    by_cases hx : SiteRepository.pairMatch m.user_id m.site_id x = true
    · have hxu : x.user_id = m.user_id ∧ x.site_id = m.site_id := by
        simpa [SiteRepository.pairMatch] using hx
      cases List.mem_cons.mp hm with
      | inl h =>
        subst h
        simp [List.find?_cons, hx]
      | inr h =>
        exact absurd ⟨hxu.1, hxu.2⟩ (hu2.1 m h)
    · cases List.mem_cons.mp hm with
      | inl h =>
        exact absurd (by rw [← h]; simp [SiteRepository.pairMatch]) hx
      | inr h =>
        have hx2 : SiteRepository.pairMatch m.user_id m.site_id x = false := by
          cases hv : SiteRepository.pairMatch m.user_id m.site_id x
          · rfl
          · exact absurd hv hx
        simp only [List.find?_cons, hx2]
        exact ih hu2.2 h

/-- Under pair uniqueness, the role lookup of a stored membership returns
its role. -/
theorem get_user_role_of_mem (ms : List UserSite)
    (hu : membershipPairsUnique ms) (m : UserSite) (hm : m ∈ ms) :
    SiteRepository.get_user_role_for_site ms m.user_id m.site_id
      = some m.role := by
  unfold SiteRepository.get_user_role_for_site
  rw [find?_pairMatch_of_mem ms hu m hm]
  rfl

/-- Under pair uniqueness, the join-based admin count of a site never
exceeds the number of admin membership rows of that site. -/
theorem admin_count_le_memberships (db : DB) (sid : Nat)
    (hu : membershipPairsUnique db.memberships) :
    SiteService.get_admin_count_for_site db sid
      ≤ db.memberships.countP (adminAt sid) := by
  unfold SiteService.get_admin_count_for_site
    SiteRepository.get_site_users_items
  rw [List.countP_filterMap]
  have hle : ∀ m ∈ db.memberships.filter (fun m => m.site_id == sid),
      ((db.users.find? (fun u => u.id == m.user_id)).map
        (fun u => SiteRepository.get_user_role_for_site db.memberships
          u.id sid == some SiteService.ADMIN_ROLE)).getD false = true →
      adminAt sid m = true := by
    intro m hm hpred
    have hmem := List.mem_filter.mp hm
    have hsite : m.site_id = sid := by simpa using hmem.2
    cases hfu : db.users.find? (fun u => u.id == m.user_id) with
    | none => rw [hfu] at hpred; cases hpred
    | some u =>
      rw [hfu] at hpred
      have hpred2 : (SiteRepository.get_user_role_for_site db.memberships
          u.id sid == some SiteService.ADMIN_ROLE) = true := hpred
      have huid : u.id = m.user_id := by
        simpa using List.find?_some hfu
      rw [huid, ← hsite] at hpred2
      rw [get_user_role_of_mem db.memberships hu m hmem.1] at hpred2
      have hrole : m.role = SiteService.ADMIN_ROLE := by
        simpa using hpred2
      simp [adminAt, hsite, hrole, SiteService.ADMIN_ROLE]
  calc (db.memberships.filter (fun m => m.site_id == sid)).countP
        (fun m => ((db.users.find? (fun u => u.id == m.user_id)).map
          (fun u => SiteRepository.get_user_role_for_site db.memberships
            u.id sid == some SiteService.ADMIN_ROLE)).getD false)
      ≤ (db.memberships.filter (fun m => m.site_id == sid)).countP
          (adminAt sid) := List.countP_mono_left hle
    _ = db.memberships.countP
          (fun m => adminAt sid m && (m.site_id == sid)) :=
        List.countP_filter _ _ _
    _ ≤ db.memberships.countP (adminAt sid) :=
        List.countP_mono_left (by
          intro a _ h
          rw [Bool.and_eq_true] at h
          exact h.1)

/-- Removing one element lowers a count by at most one. -/
theorem countP_listRemoveFirst_add_one_ge {α : Type} (l : List α)
    (p q : α → Bool) :
    l.countP q ≤ (listRemoveFirst l p).countP q + 1 := by
  induction l with
  | nil => simp [listRemoveFirst]
  | cons x xs ih =>
    by_cases hp : p x = true
    · rw [show listRemoveFirst (x :: xs) p = xs from by
        simp [listRemoveFirst, hp]]
      rw [List.countP_cons]
      cases hq : q x <;> simp
    · rw [show listRemoveFirst (x :: xs) p = x :: listRemoveFirst xs p
        from by simp [listRemoveFirst, hp]]
      rw [List.countP_cons, List.countP_cons]
      cases hq : q x <;> simp <;> omega

/-- Removing an element that fails the counted predicate leaves the count
unchanged. -/
theorem countP_listRemoveFirst_eq_of {α : Type} (l : List α)
    (p q : α → Bool) (h : ∀ x ∈ l, p x = true → q x = false) :
    (listRemoveFirst l p).countP q = l.countP q := by
  induction l with
  | nil => rfl
  | cons x xs ih =>
    by_cases hp : p x = true
    · rw [show listRemoveFirst (x :: xs) p = xs from by
        simp [listRemoveFirst, hp]]
      rw [List.countP_cons]
      rw [h x (by simp) hp]
      simp
    · rw [show listRemoveFirst (x :: xs) p = x :: listRemoveFirst xs p
        from by simp [listRemoveFirst, hp]]
      rw [List.countP_cons, List.countP_cons,
        ih (fun y hy hpy => h y (by simp [hy]) hpy)]

/-- Replacing one element lowers a count by at most one. -/
theorem countP_listReplaceFirst_add_one_ge {α : Type} (l : List α)
    (p : α → Bool) (f : α → α) (q : α → Bool) :
    l.countP q ≤ (listReplaceFirst l p f).countP q + 1 := by
  induction l with
  | nil => simp [listReplaceFirst]
  | cons x xs ih =>
    by_cases hp : p x = true
    · rw [show listReplaceFirst (x :: xs) p f = f x :: xs from by
        simp [listReplaceFirst, hp]]
      rw [List.countP_cons, List.countP_cons]
      cases hq : q x <;> cases hq2 : q (f x) <;> simp_all <;> omega
    · rw [show listReplaceFirst (x :: xs) p f
          = x :: listReplaceFirst xs p f from by
        simp [listReplaceFirst, hp]]
      rw [List.countP_cons, List.countP_cons]
      cases hq : q x <;> simp <;> omega

/-- Replacing an element that fails the counted predicate with another
failing one leaves the count unchanged. -/
theorem countP_listReplaceFirst_eq_of {α : Type} (l : List α)
    (p : α → Bool) (f : α → α) (q : α → Bool)
    (h : ∀ x ∈ l, p x = true → (q x = false ∧ q (f x) = false)) :
    (listReplaceFirst l p f).countP q = l.countP q := by
  induction l with
  | nil => rfl
  | cons x xs ih =>
    by_cases hp : p x = true
    · rw [show listReplaceFirst (x :: xs) p f = f x :: xs from by
        simp [listReplaceFirst, hp]]
      rw [List.countP_cons, List.countP_cons,
        (h x (by simp) hp).1, (h x (by simp) hp).2]
    · rw [show listReplaceFirst (x :: xs) p f
          = x :: listReplaceFirst xs p f from by
        simp [listReplaceFirst, hp]]
      rw [List.countP_cons, List.countP_cons,
        ih (fun y hy hpy => h y (by simp [hy]) hpy)]

/-- A replacement that can only turn counted elements into counted elements
never lowers the count. -/
theorem countP_listReplaceFirst_ge_of {α : Type} (l : List α)
    (p : α → Bool) (f : α → α) (q : α → Bool)
    (h : ∀ x ∈ l, p x = true → q x = true → q (f x) = true) :
    l.countP q ≤ (listReplaceFirst l p f).countP q := by
  induction l with
  | nil => simp [listReplaceFirst]
  | cons x xs ih =>
    by_cases hp : p x = true
    · rw [show listReplaceFirst (x :: xs) p f = f x :: xs from by
        simp [listReplaceFirst, hp]]
      rw [List.countP_cons, List.countP_cons]
      by_cases hq : q x = true
      · rw [h x (by simp) hp hq, hq]
      · have hq2 : q x = false := by
          cases hv : q x
          · rfl
          · exact absurd hv hq
        rw [hq2]
        cases hq3 : q (f x) <;> simp
    · rw [show listReplaceFirst (x :: xs) p f
          = x :: listReplaceFirst xs p f from by
        simp [listReplaceFirst, hp]]
      rw [List.countP_cons, List.countP_cons]
      have ih2 := ih (fun y hy hpy hqy => h y (by simp [hy]) hpy hqy)
      cases hq : q x <;> simp <;> omega

/-- hasAdmin as a positive admin-row count. -/
theorem hasAdmin_iff_countP_pos (ms : List UserSite) (s : Nat) :
    hasAdmin ms s = true ↔ 0 < ms.countP (adminAt s) := by
  unfold hasAdmin
  rw [List.any_eq_true, List.countP_pos_iff]

/-- Claim C2: under the membership pair-uniqueness invariant, removing or
demoting the user who holds the admin role of a site while the admin count
is at most one is rejected with the state unchanged, and every membership
operation of the service preserves the invariant that a site with at least
one admin membership keeps at least one admin membership. -/
theorem C2_last_admin_preserved (db : DB) (s : Nat)
    (hu : membershipPairsUnique db.memberships) :
    (∀ uid, SiteRepository.get_user_role_for_site db.memberships uid s
        = some "admin" →
      SiteService.get_admin_count_for_site db s ≤ 1 →
      SiteService.remove_user_from_site db uid s = (false, db) ∧
      (∀ r, str_tolower r = "user" →
        SiteRepository.get_site_by_id db.sites s ≠ none →
        SiteService.update_user_site_role db uid s r
          = .error .lastAdmin)) ∧
    (∀ uid sid, hasAdmin db.memberships s = true →
      hasAdmin
        (SiteService.remove_user_from_site db uid sid).2.memberships s
        = true) ∧
    (∀ uid sid r db1 res, hasAdmin db.memberships s = true →
      SiteService.update_user_site_role db uid sid r = .ok (db1, res) →
      hasAdmin db1.memberships s = true) := by
  refine ⟨?_, ?_, ?_⟩
  · intro uid hrole hcount
    constructor
    · unfold SiteService.remove_user_from_site
      cases hsite : SiteRepository.get_site_by_id db.sites s with
      | none => rfl
      | some z =>
        rw [if_pos ⟨by rw [hrole]; decide, hcount⟩]
    · intro r hr hsite
      unfold SiteService.update_user_site_role
      cases hsval : SiteRepository.get_site_by_id db.sites s with
      | none => exact absurd hsval hsite
      | some z =>
        dsimp only
        rw [hr]
        rw [if_neg (by decide :
          ¬("user" ≠ SiteService.DEFAULT_SITE_ROLE
            ∧ "user" ≠ SiteService.ADMIN_ROLE))]
        rw [if_pos ⟨by rw [hrole]; decide, by decide, hcount⟩]
  · intro uid sid hadm
    unfold SiteService.remove_user_from_site
    cases hsite : SiteRepository.get_site_by_id db.sites sid with
    | none => exact hadm
    | some z =>
      dsimp only
      by_cases hguard : (SiteRepository.get_user_role_for_site
          db.memberships uid sid == some SiteService.ADMIN_ROLE) = true
          ∧ SiteService.get_admin_count_for_site db sid ≤ 1
      · rw [if_pos hguard]
        exact hadm
      · rw [if_neg hguard]
        unfold SiteRepository.remove_user_from_site
        cases hfind : db.memberships.find?
            (SiteRepository.pairMatch uid sid) with
        | none => exact hadm
        | some m =>
          dsimp only
          rw [hasAdmin_iff_countP_pos] at hadm ⊢
          rcases not_and_or.mp hguard with hA | hB
          · rw [countP_listRemoveFirst_eq_of _ _ _ ?hside]
            · exact hadm
            case hside =>
              intro x hx hpx
              have hxp : x.user_id = uid ∧ x.site_id = sid := by
                simpa [SiteRepository.pairMatch] using hpx
              by_cases hsd : sid = s
              · subst hsd
                have hrx := get_user_role_of_mem db.memberships hu x hx
                rw [hxp.1, hxp.2] at hrx
                have hxr : x.role ≠ SiteService.ADMIN_ROLE := by
                  intro hcontra
                  apply hA
                  rw [hrx, hcontra]
                  decide
                simp [adminAt]
                exact fun _ hc => hxr hc
              · have : x.site_id ≠ s := by rw [hxp.2]; exact hsd
                simp [adminAt, this]
          · by_cases hsd : sid = s
            · subst hsd
              have h2 : 2 ≤ db.memberships.countP (adminAt sid) := by
                have := admin_count_le_memberships db sid hu
                omega
              have h3 := countP_listRemoveFirst_add_one_ge db.memberships
                (SiteRepository.pairMatch uid sid) (adminAt sid)
              omega
            · rw [countP_listRemoveFirst_eq_of _ _ _ ?hside2]
              · exact hadm
              case hside2 =>
                intro x hx hpx
                have hxp : x.user_id = uid ∧ x.site_id = sid := by
                  simpa [SiteRepository.pairMatch] using hpx
                have : x.site_id ≠ s := by rw [hxp.2]; exact hsd
                simp [adminAt, this]
  · intro uid sid r db1 res hadm hupd
    unfold SiteService.update_user_site_role at hupd
    cases hsite : SiteRepository.get_site_by_id db.sites sid with
    | none =>
      rw [hsite] at hupd
      dsimp only at hupd
      injection hupd with h
      injection h with h1 h2
      rw [← h1]
      exact hadm
    | some z =>
      rw [hsite] at hupd
      dsimp only at hupd
      by_cases hval : str_tolower r ≠ SiteService.DEFAULT_SITE_ROLE
          ∧ str_tolower r ≠ SiteService.ADMIN_ROLE
      · rw [if_pos hval] at hupd
        cases hupd
      · rw [if_neg hval] at hupd
        by_cases hguard : (SiteRepository.get_user_role_for_site
            db.memberships uid sid == some SiteService.ADMIN_ROLE) = true
            ∧ str_tolower r ≠ SiteService.ADMIN_ROLE
            ∧ SiteService.get_admin_count_for_site db sid ≤ 1
        · rw [if_pos hguard] at hupd
          cases hupd
        · rw [if_neg hguard] at hupd
          cases hrepo : SiteRepository.update_user_site_role db uid sid
              (str_tolower r) with
          | none =>
            rw [hrepo] at hupd
            injection hupd with h
            injection h with h1 h2
            rw [← h1]
            exact hadm
          | some pair =>
            obtain ⟨dbx, us⟩ := pair
            rw [hrepo] at hupd
            injection hupd with h
            injection h with h1 h2
            rw [← h1]
            unfold SiteRepository.update_user_site_role at hrepo
            cases hfind : db.memberships.find?
                (SiteRepository.pairMatch uid sid) with
            | none => rw [hfind] at hrepo; cases hrepo
            | some m =>
              rw [hfind] at hrepo
              dsimp only at hrepo
              injection hrepo with hpair
              have hx1 := congrArg Prod.fst hpair
              dsimp only at hx1
              have hmems : dbx.memberships
                  = listReplaceFirst db.memberships
                    (SiteRepository.pairMatch uid sid)
                    (fun x => { x with role := str_tolower r }) := by
                rw [← hx1]
              rw [hmems]
              rw [hasAdmin_iff_countP_pos] at hadm ⊢
              by_cases hsd : sid = s
              · subst hsd
                by_cases hradmin : str_tolower r = SiteService.ADMIN_ROLE
                · have hge := countP_listReplaceFirst_ge_of db.memberships
                    (SiteRepository.pairMatch uid sid)
                    (fun x => { x with role := str_tolower r })
                    (adminAt sid) ?hkeep
                  · omega
                  case hkeep =>
                    intro x hx hpx hqx
                    have hxp : x.user_id = uid ∧ x.site_id = sid := by
                      simpa [SiteRepository.pairMatch] using hpx
                    simp [adminAt, hxp.2, hradmin, SiteService.ADMIN_ROLE]
                · rcases not_and_or.mp hguard with hA | hBC
                  · rw [countP_listReplaceFirst_eq_of _ _ _ _ ?hdrop]
                    · exact hadm
                    case hdrop =>
                      intro x hx hpx
                      have hxp : x.user_id = uid ∧ x.site_id = sid := by
                        simpa [SiteRepository.pairMatch] using hpx
                      have hrx := get_user_role_of_mem db.memberships hu x hx
                      rw [hxp.1, hxp.2] at hrx
                      have hxr : x.role ≠ SiteService.ADMIN_ROLE := by
                        intro hcontra
                        apply hA
                        rw [hrx, hcontra]
                        decide
                      constructor
                      · simp [adminAt]
                        exact fun _ hc => hxr hc
                      · simp [adminAt]
                        exact fun _ hc => hradmin hc
                  · rcases not_and_or.mp hBC with hB | hC
                    · exact absurd hradmin (by simpa using hB)
                    · have h2 : 2 ≤ db.memberships.countP (adminAt sid) := by
                        have := admin_count_le_memberships db sid hu
                        omega
                      have h3 := countP_listReplaceFirst_add_one_ge
                        db.memberships
                        (SiteRepository.pairMatch uid sid)
                        (fun x => { x with role := str_tolower r })
                        (adminAt sid)
                      omega
              · rw [countP_listReplaceFirst_eq_of _ _ _ _ ?hoff]
                · exact hadm
                case hoff =>
                  intro x hx hpx
                  have hxp : x.user_id = uid ∧ x.site_id = sid := by
                    simpa [SiteRepository.pairMatch] using hpx
                  have hne : x.site_id ≠ s := by rw [hxp.2]; exact hsd
                  constructor
                  · simp [adminAt, hne]
                  · simp [adminAt, hne]

/-- Claim C2 witness: on a concrete site with one admin and one plain user,
removing or demoting the sole admin is rejected with the state unchanged,
and removing the plain user or promoting them both leave the site with an
admin membership. -/
theorem C2_last_admin_preserved_witness :
    SiteService.remove_user_from_site
      { users := [{ id := 1, username := "a", email := "a",
                    password_hash := "h" },
                  { id := 2, username := "b", email := "b",
                    password_hash := "h" }],
        sites := [{ site_id := 1, name := "HQ" }],
        memberships := [{ user_id := 1, site_id := 1, role := "admin" },
                        { user_id := 2, site_id := 1, role := "user" }],
        interactions := [], next_site_id := 2 } 1 1
      = (false,
         { users := [{ id := 1, username := "a", email := "a",
                       password_hash := "h" },
                     { id := 2, username := "b", email := "b",
                       password_hash := "h" }],
           sites := [{ site_id := 1, name := "HQ" }],
           memberships := [{ user_id := 1, site_id := 1, role := "admin" },
                           { user_id := 2, site_id := 1, role := "user" }],
           interactions := [], next_site_id := 2 }) ∧
    SiteService.update_user_site_role
      { users := [{ id := 1, username := "a", email := "a",
                    password_hash := "h" },
                  { id := 2, username := "b", email := "b",
                    password_hash := "h" }],
        sites := [{ site_id := 1, name := "HQ" }],
        memberships := [{ user_id := 1, site_id := 1, role := "admin" },
                        { user_id := 2, site_id := 1, role := "user" }],
        interactions := [], next_site_id := 2 } 1 1 "user"
      = .error .lastAdmin ∧
    hasAdmin
      (SiteService.remove_user_from_site
        { users := [{ id := 1, username := "a", email := "a",
                      password_hash := "h" },
                    { id := 2, username := "b", email := "b",
                      password_hash := "h" }],
          sites := [{ site_id := 1, name := "HQ" }],
          memberships := [{ user_id := 1, site_id := 1, role := "admin" },
                          { user_id := 2, site_id := 1, role := "user" }],
          interactions := [], next_site_id := 2 } 2 1).2.memberships 1
      = true ∧
    hasAdmin
      ({ users := [{ id := 1, username := "a", email := "a",
                     password_hash := "h" },
                   { id := 2, username := "b", email := "b",
                     password_hash := "h" }],
         sites := [{ site_id := 1, name := "HQ" }],
         memberships := [{ user_id := 1, site_id := 1, role := "admin" },
                         { user_id := 2, site_id := 1, role := "admin" }],
         interactions := [], next_site_id := 2 } : DB).memberships 1
      = true := by
  have h := C2_last_admin_preserved
    { users := [{ id := 1, username := "a", email := "a",
                  password_hash := "h" },
                { id := 2, username := "b", email := "b",
                  password_hash := "h" }],
      sites := [{ site_id := 1, name := "HQ" }],
      memberships := [{ user_id := 1, site_id := 1, role := "admin" },
                      { user_id := 2, site_id := 1, role := "user" }],
      interactions := [], next_site_id := 2 } 1
    (by unfold membershipPairsUnique; decide)
  have h1 := h.1 1 (by decide) (by decide)
  refine ⟨h1.1, h1.2 "user" (by decide) (by decide), ?_, ?_⟩
  · exact h.2.1 2 1 (by decide)
  · exact h.2.2 2 1 "admin"
      { users := [{ id := 1, username := "a", email := "a",
                    password_hash := "h" },
                  { id := 2, username := "b", email := "b",
                    password_hash := "h" }],
        sites := [{ site_id := 1, name := "HQ" }],
        memberships := [{ user_id := 1, site_id := 1, role := "admin" },
                        { user_id := 2, site_id := 1, role := "admin" }],
        interactions := [], next_site_id := 2 }
      (some { user_id := 2, site_id := 1, role := "admin" })
      (by decide) (by decide)
